import Mathlib

/-!
Verification of the tourism-spot aggregation & caching core.

Shallow embedding of the caching/aggregation layer of the backend:
* `src/backend/src/repositories/spot_repository.py`   (relational spot reads)
* `src/backend/src/repositories/rating_repository.py` (rating aggregation)
* `src/backend/src/repositories/photo_repository.py`  (document-store photo count)
* `src/backend/src/config/redis.py`                   (cache client wrappers)
* `src/backend/src/services/spot_service.py`          (cache-aside orchestration)
* `src/backend/src/services/rating_service.py`        (rating write path)
* `src/backend/src/api/spots.py`, `src/backend/src/api/ratings.py` (write handlers)

Databases are modelled as lists of rows, the cache as a list of keyed entries
with absolute expiry timestamps, time as a natural-number clock, Python floats
and SQL numerics as exact rationals, and raised-and-caught Redis errors as an
explicit `Except` layer that the `cache_*` wrappers translate, exactly as the
`try/except RedisError` blocks in `config/redis.py` do.
-/

/-- Row of the `ponto_turistico` table (`src/models/ponto_turistico.py`).
`deleted_at = none` means the spot is active; timestamps are abstract
natural-number instants. -/
structure PontoTuristico where
  id : Nat
  nome : String
  descricao : String
  cidade : String
  estado : String
  pais : String
  latitude : ℚ
  longitude : ℚ
  endereco : String
  criado_por : Nat
  created_at : Nat
  deleted_at : Option Nat
deriving DecidableEq, Repr

/-- Row of the `avaliacao` table (`src/models/avaliacao.py`). -/
structure Avaliacao where
  id : Nat
  ponto_id : Nat
  usuario_id : Nat
  nota : Int
  comentario : Option String
  created_at : Nat
deriving DecidableEq, Repr

/-- Photo document in the MongoDB `fotos` collection; only the `pontoId`
reference matters to the core. -/
structure Photo where
  pontoId : Nat
  createdAt : Nat
deriving DecidableEq, Repr

/-- Embeds `created_at.isoformat()`: timestamps are abstract, so serialisation is
just their decimal representation. -/
def isoformat (t : Nat) : String := toString t

namespace SpotRepository

/-- Embeds `SpotRepository.get_by_id`: single active (non-soft-deleted) row with the
given id, via `scalar_one_or_none` (ids are unique, so `head?`). -/
def get_by_id (db : List PontoTuristico) (id : Nat) : Option PontoTuristico :=
  (db.filter (fun s => s.id == id && s.deleted_at == none)).head?

/-- Case-insensitive substring match, the semantics of SQL
`column ILIKE %value%`. -/
def ilike (field v : String) : Bool :=
  decide (List.IsInfix v.toLower.data field.toLower.data)

/-- One conditional `query.where(column.ilike(f"%{v}%"))`; Python
`if v:` skips the filter when `v` is `None` or the empty string. -/
def matchOpt (field : String) (v : Option String) : Bool :=
  match v with
  | none => true
  | some x => if x.isEmpty then true else ilike field x

/-- The `search` filter: `nome ILIKE %s% OR descricao ILIKE %s%`. -/
def matchSearch (s : PontoTuristico) (v : Option String) : Bool :=
  match v with
  | none => true
  | some x => if x.isEmpty then true else (ilike s.nome x || ilike s.descricao x)

/-- The conjunction of the four optional filters of `get_all`/`count_all`. -/
def matchFilters (cidade estado pais search : Option String)
    (s : PontoTuristico) : Bool :=
  matchOpt s.cidade cidade && matchOpt s.estado estado &&
    matchOpt s.pais pais && matchSearch s search

/-- Embeds `SpotRepository.get_all`: active rows, the four optional filters, ordered
by `created_at` descending, then `OFFSET skip LIMIT limit`. -/
def get_all (db : List PontoTuristico) (skip limit : Nat)
    (cidade estado pais search : Option String) : List PontoTuristico :=
  ((((db.filter (fun s => s.deleted_at == none)).filter
      (matchFilters cidade estado pais search)).mergeSort
      (fun a b => decide (b.created_at ≤ a.created_at))).drop skip).take limit

/-- Embeds `SpotRepository.count_all`: `COUNT(id)` over the same filtered set. -/
def count_all (db : List PontoTuristico)
    (cidade estado pais search : Option String) : Nat :=
  ((db.filter (fun s => s.deleted_at == none)).filter
      (matchFilters cidade estado pais search)).length

/-- Embeds `SpotRepository.delete`: soft delete — look up the active row and set its
`deleted_at` to the current instant. Returns the success flag and the table. -/
def soft_delete (db : List PontoTuristico) (id : Nat) (now : Nat) :
    Bool × List PontoTuristico :=
  match get_by_id db id with
  | none => (false, db)
  | some _ =>
      (true, db.map (fun s =>
        if s.id == id && s.deleted_at == none
        then { s with deleted_at := some now } else s))

end SpotRepository

namespace RatingRepository

/-- The rating rows of one spot: `WHERE ponto_id = pid`. -/
def ratingsFor (db : List Avaliacao) (pid : Nat) : List Avaliacao :=
  db.filter (fun r => r.ponto_id == pid)

/-- Embeds `RatingRepository.get_average_rating`: `AVG(nota)`, `NULL` (here `none`)
when the spot has no ratings. -/
def get_average_rating (db : List Avaliacao) (pid : Nat) : Option ℚ :=
  let rs := ratingsFor db pid
  if rs.isEmpty then none
  else some (((rs.map (·.nota)).sum : ℚ) / rs.length)

/-- Embeds `RatingRepository.count_by_spot_id`: `COUNT(id)` over the rows of the spot. -/
def count_by_spot_id (db : List Avaliacao) (pid : Nat) : Nat :=
  (ratingsFor db pid).length

/-- Embeds `RatingRepository.get_by_user_and_spot`: the unique row for one
`(usuario_id, ponto_id)` pair, or `none`. -/
def get_by_user_and_spot (db : List Avaliacao) (uid pid : Nat) :
    Option Avaliacao :=
  (db.filter (fun r => r.usuario_id == uid && r.ponto_id == pid)).head?

/-- The SQL `GROUP BY nota` result: one `(nota, COUNT(id))` pair per distinct
`nota` value among the rows of the spot. -/
def groupByNota (rs : List Avaliacao) : List (Int × Nat) :=
  ((rs.map (·.nota)).dedup).map
    (fun n => (n, (rs.filter (fun r => r.nota == n)).length))

/-- Python dict assignment `d[k] = v`: overwrite the entry when the key is
present, append it otherwise. Dicts are insertion-ordered association lists. -/
def dictSet (d : List (Int × Nat)) (k : Int) (v : Nat) : List (Int × Nat) :=
  if d.any (fun p => p.1 == k) then
    d.map (fun p => if p.1 == k then (k, v) else p)
  else d ++ [(k, v)]

/-- Embeds `RatingRepository.get_rating_distribution`: start from
`{1:0, 2:0, 3:0, 4:0, 5:0}` and assign each group-by row into the dict. -/
def get_rating_distribution (db : List Avaliacao) (pid : Nat) :
    List (Int × Nat) :=
  (groupByNota (ratingsFor db pid)).foldl (fun d p => dictSet d p.1 p.2)
    [(1, 0), (2, 0), (3, 0), (4, 0), (5, 0)]

/-- Fresh primary key assigned by the database on flush. -/
def nextId (db : List Avaliacao) : Nat :=
  (db.map (·.id)).foldl max 0 + 1

/-- Embeds `RatingRepository.create`: insert the new row and return it. -/
def create (db : List Avaliacao) (ponto_id usuario_id : Nat) (nota : Int)
    (comentario : Option String) (now : Nat) : Avaliacao × List Avaliacao :=
  let r : Avaliacao := ⟨nextId db, ponto_id, usuario_id, nota, comentario, now⟩
  (r, db ++ [r])

end RatingRepository

namespace PhotoRepository

/-- Embeds `PhotoRepository.count_by_spot_id`: `count_documents({"pontoId": pid})`. -/
def count_by_spot_id (photos : List Photo) (pid : Nat) : Nat :=
  (photos.filter (fun p => p.pontoId == pid)).length

end PhotoRepository

/-! ## Cache model (`src/config/redis.py`)

Redis is a key→JSON store with per-key expiry. `available = false` models an
unreachable server: every raw client call raises `RedisError`, which the
`cache_*` wrappers catch. Time is an explicit `now : Nat` instant. -/

/-- Embeds `Settings.CACHE_SPOT_DETAILS_TTL` (seconds). -/
def CACHE_SPOT_DETAILS_TTL : Nat := 300

/-- Embeds `Settings.CACHE_SPOT_LIST_TTL` (seconds). -/
def CACHE_SPOT_LIST_TTL : Nat := 60

/-- Python `round(x, 2)` on the exact rational value (binary-float
round-half-even artifacts are abstracted away; no claim depends on ties). -/
def round2 (q : ℚ) : ℚ := (round (q * 100) : ℤ) / 100

/-- Embeds `round(avg_rating, 2) if avg_rating else None`: Python truthiness maps
both `None` and `0.0` to `None`. -/
def displayAvg : Option ℚ → Option ℚ
  | none => none
  | some a => if a = 0 then none else some (round2 a)

/-- The enriched spot-detail dictionary built by
`SpotService.get_spot_by_id` on a cache miss. -/
structure SpotDetail where
  id : Nat
  nome : String
  descricao : String
  cidade : String
  estado : String
  pais : String
  latitude : ℚ
  longitude : ℚ
  endereco : String
  criado_por : Nat
  created_at : String
  avg_rating : Option ℚ
  rating_count : Nat
  photo_count : Nat
deriving DecidableEq, Repr

/-- One element of the `spots` array built by `SpotService.list_spots`. -/
structure SpotSummary where
  id : Nat
  nome : String
  descricao : String
  cidade : String
  estado : String
  pais : String
  avg_rating : Option ℚ
  rating_count : Nat
deriving DecidableEq, Repr

/-- The dictionary returned by `SpotService.list_spots`. -/
structure SpotListResult where
  spots : List SpotSummary
  total : Nat
  skip : Nat
  limit : Nat
  has_more : Bool
deriving DecidableEq, Repr

/-- A JSON value stored in the cache: either a spot-detail dictionary
(`spot:{id}` keys) or a list-result dictionary (`spots:list:...` keys). -/
inductive CacheValue where
  | detail : SpotDetail → CacheValue
  | listing : SpotListResult → CacheValue
deriving DecidableEq, Repr

/-- One Redis entry: key, JSON value, absolute expiry instant (`SETEX`). -/
structure CacheEntry where
  key : String
  value : CacheValue
  expires_at : Nat
deriving DecidableEq, Repr

/-- The Redis server state: its entries and whether it is reachable. -/
structure Cache where
  entries : List CacheEntry
  available : Bool
deriving DecidableEq, Repr

/-- Raw `client.get`: raises `RedisError` when the server is unreachable,
otherwise returns the unexpired value stored at `key`, if any. -/
def redis_get (c : Cache) (key : String) (now : Nat) :
    Except String (Option CacheValue) :=
  if c.available then
    .ok (match (c.entries.filter (fun e => e.key == key)).head? with
      | some e => if now < e.expires_at then some e.value else none
      | none => none)
  else .error "RedisError"

/-- Raw `client.setex`: raises when unreachable, otherwise stores `value`
under `key` with expiry `now + ttl`, replacing any previous entry. -/
def redis_setex (c : Cache) (key : String) (ttl : Nat) (value : CacheValue)
    (now : Nat) : Except String Cache :=
  if c.available then
    .ok { c with entries :=
      ⟨key, value, now + ttl⟩ :: c.entries.filter (fun e => !(e.key == key)) }
  else .error "RedisError"

/-- Raw `client.delete`: raises when unreachable, otherwise removes `key`. -/
def redis_delete (c : Cache) (key : String) : Except String Cache :=
  if c.available then
    .ok { c with entries := c.entries.filter (fun e => !(e.key == key)) }
  else .error "RedisError"

/-- Raw `scan_iter(match=pre ++ "*")` + `delete`: raises when unreachable,
otherwise removes every key with the literal prefix `pre`. -/
def redis_delete_by_pre (c : Cache) (pre : String) : Except String Cache :=
  if c.available then
    .ok { c with entries := c.entries.filter (fun e => !(pre.isPrefixOf e.key)) }
  else .error "RedisError"

/-- Embeds `cache_get` (`config/redis.py`): `try ... except RedisError: return None`
— a failed read is indistinguishable from a miss. -/
def cache_get (c : Cache) (key : String) (now : Nat) : Option CacheValue :=
  match redis_get c key now with
  | .ok v => v
  | .error _ => none

/-- Embeds `cache_set`: `try ... except RedisError: return False` — a failed write
leaves the cache unchanged and is reported only through the ignored flag. -/
def cache_set (c : Cache) (key : String) (value : CacheValue) (ttl now : Nat) :
    Bool × Cache :=
  match redis_setex c key ttl value now with
  | .ok c' => (true, c')
  | .error _ => (false, c)

/-- Embeds `cache_delete`: failures swallowed, cache unchanged on error. -/
def cache_delete (c : Cache) (key : String) : Bool × Cache :=
  match redis_delete c key with
  | .ok c' => (true, c')
  | .error _ => (false, c)

/-- Embeds `cache_clear_pattern` with a `pre ++ "*"` glob: failures swallowed. -/
def cache_clear_pattern (c : Cache) (pre : String) : Cache :=
  match redis_delete_by_pre c pre with
  | .ok c' => c'
  | .error _ => c

/-! ## SpotService (`src/services/spot_service.py`) -/

namespace SpotService

/-- The detail cache key `f"spot:{spot_id}"`. -/
def detailKey (spot_id : Nat) : String := "spot:" ++ toString spot_id

/-- Python `str(v)` for an optional filter: `None` prints as `"None"`. -/
def optStr : Option String → String
  | none => "None"
  | some s => s

/-- The list cache key
`f"spots:list:{skip}:{limit}:{cidade}:{estado}:{pais}:{search}"`. -/
def list_cache_key (skip limit : Nat)
    (cidade estado pais search : Option String) : String :=
  "spots:list:" ++ toString skip ++ ":" ++ toString limit ++ ":" ++
    optStr cidade ++ ":" ++ optStr estado ++ ":" ++ optStr pais ++ ":" ++
    optStr search

/-- The miss-path body of `get_spot_by_id` (lines 44–69): fetch the active
spot row, aggregate its ratings, count its photos, assemble the dictionary.
Returns `none` when the spot has no active row. -/
def buildSpotDetail (dbs : List PontoTuristico) (dbr : List Avaliacao)
    (photos : List Photo) (spot_id : Nat) : Option SpotDetail :=
  match SpotRepository.get_by_id dbs spot_id with
  | none => none
  | some spot =>
      some { id := spot.id, nome := spot.nome, descricao := spot.descricao,
             cidade := spot.cidade, estado := spot.estado, pais := spot.pais,
             latitude := spot.latitude, longitude := spot.longitude,
             endereco := spot.endereco, criado_por := spot.criado_por,
             created_at := isoformat spot.created_at,
             avg_rating :=
               displayAvg (RatingRepository.get_average_rating dbr spot_id),
             rating_count := RatingRepository.count_by_spot_id dbr spot_id,
             photo_count := PhotoRepository.count_by_spot_id photos spot_id }

/-- Embeds `SpotService.get_spot_by_id`: cache-aside read of one spot detail.
Returns the (dynamically typed) response and the cache state afterwards. -/
def get_spot_by_id (dbs : List PontoTuristico) (dbr : List Avaliacao)
    (photos : List Photo) (c : Cache) (now spot_id : Nat) :
    Option CacheValue × Cache :=
  match cache_get c (detailKey spot_id) now with
  | some v => (some v, c)
  | none =>
      match buildSpotDetail dbs dbr photos spot_id with
      | none => (none, c)
      | some r =>
          (some (.detail r),
           (cache_set c (detailKey spot_id) (.detail r)
              CACHE_SPOT_DETAILS_TTL now).2)

/-- The per-spot summary built inside the `list_spots` loop, including the
200-character description truncation. -/
def enrichSummary (dbr : List Avaliacao) (s : PontoTuristico) : SpotSummary :=
  { id := s.id, nome := s.nome,
    descricao := if s.descricao.length > 200
                 then s.descricao.take 200 ++ "..." else s.descricao,
    cidade := s.cidade, estado := s.estado, pais := s.pais,
    avg_rating := displayAvg (RatingRepository.get_average_rating dbr s.id),
    rating_count := RatingRepository.count_by_spot_id dbr s.id }

/-- The miss-path body of `list_spots` (lines 105–136): page of spots,
total count, per-spot enrichment, pagination metadata. -/
def buildSpotList (dbs : List PontoTuristico) (dbr : List Avaliacao)
    (skip limit : Nat) (cidade estado pais search : Option String) :
    SpotListResult :=
  let spots := SpotRepository.get_all dbs skip limit cidade estado pais search
  let total := SpotRepository.count_all dbs cidade estado pais search
  { spots := spots.map (enrichSummary dbr), total := total,
    skip := skip, limit := limit, has_more := skip + limit < total }

/-- Embeds `SpotService.list_spots`: cache-aside read of one filtered page. -/
def list_spots (dbs : List PontoTuristico) (dbr : List Avaliacao) (c : Cache)
    (now skip limit : Nat) (cidade estado pais search : Option String) :
    CacheValue × Cache :=
  let key := list_cache_key skip limit cidade estado pais search
  match cache_get c key now with
  | some v => (v, c)
  | none =>
      let result := buildSpotList dbs dbr skip limit cidade estado pais search
      (.listing result,
       (cache_set c key (.listing result) CACHE_SPOT_LIST_TTL now).2)

/-- Embeds `SpotService.invalidate_spot_cache`: delete `spot:{id}` and every
`spots:list:*` key. -/
def invalidate_spot_cache (c : Cache) (spot_id : Nat) : Cache :=
  cache_clear_pattern (cache_delete c (detailKey spot_id)).2 "spots:list:"

end SpotService

/-! ## RatingService (`src/services/rating_service.py`) and write handlers -/

/-- A raised `HTTPException`, identified by status code and the error `code`
field of its detail payload. -/
structure HTTPException where
  status_code : Nat
  code : String
deriving DecidableEq, Repr

namespace RatingService

/-- Embeds `RatingService._update_spot_rating_aggregation`: recomputes the average
and count, then does nothing with them — its body ends in `pass`. -/
def update_spot_rating_aggregation (dbr : List Avaliacao) (pid : Nat) : Unit :=
  let _avg := RatingRepository.get_average_rating dbr pid
  let _cnt := RatingRepository.count_by_spot_id dbr pid
  ()

/-- Embeds `RatingService.create_rating`: validate the spot exists (404), that the
user has not already rated it (409), then the 1–5 range (400), then insert
and call the aggregation hook. -/
def create_rating (dbs : List PontoTuristico) (dbr : List Avaliacao)
    (ponto_id usuario_id : Nat) (nota : Int) (comentario : Option String)
    (now : Nat) : Except HTTPException (Avaliacao × List Avaliacao) :=
  match SpotRepository.get_by_id dbs ponto_id with
  | none => .error ⟨404, "SPOT_001"⟩
  | some _ =>
      match RatingRepository.get_by_user_and_spot dbr usuario_id ponto_id with
      | some _ => .error ⟨409, "RATING_001"⟩
      | none =>
          if nota < 1 ∨ nota > 5 then .error ⟨400, "VAL_003"⟩
          else
            let (r, dbr') :=
              RatingRepository.create dbr ponto_id usuario_id nota comentario now
            let _ := update_spot_rating_aggregation dbr' ponto_id
            .ok (r, dbr')

end RatingService

/-- The `POST /spots/{spot_id}/ratings` handler (`api/ratings.py`): calls
`RatingService.create_rating` and commits. The handler performs no cache
operation, so the cache state passes through untouched. -/
def create_rating_endpoint (dbs : List PontoTuristico) (dbr : List Avaliacao)
    (c : Cache) (spot_id usuario_id : Nat) (nota : Int)
    (comentario : Option String) (now : Nat) :
    Except HTTPException (Avaliacao × List Avaliacao × Cache) :=
  match RatingService.create_rating dbs dbr spot_id usuario_id nota
      comentario now with
  | .error e => .error e
  | .ok (r, dbr') => .ok (r, dbr', c)

/-- The `DELETE /spots/{spot_id}` handler (`api/spots.py` lines 237–274):
check existence, soft delete, commit. It performs no cache operation, so the
cache state passes through untouched. -/
def delete_spot_endpoint (dbs : List PontoTuristico) (c : Cache)
    (spot_id now : Nat) :
    Except HTTPException (List PontoTuristico × Cache) :=
  match SpotRepository.get_by_id dbs spot_id with
  | none => .error ⟨404, "SPOT_NOT_FOUND"⟩
  | some _ =>
      let (_, dbs') := SpotRepository.soft_delete dbs spot_id now
      .ok (dbs', c)

/-! ## Helper lemmas -/

/-- A key held by no entry of the cache always reads as a miss, whether the
server is reachable (no entry to find) or not (error swallowed). -/
theorem cache_get_of_no_entry {c : Cache} {k : String} {now : Nat}
    (h : ∀ e ∈ c.entries, e.key ≠ k) : cache_get c k now = none := by
  unfold cache_get redis_get
  by_cases hav : c.available
  · have hfil : c.entries.filter (fun e => e.key == k) = [] := by
      apply List.filter_eq_nil_iff.mpr
      intro e he
      simpa using h e he
    simp [hav, hfil]
  · simp [hav]

/-- An unreachable cache reads as a miss for every key. -/
theorem cache_get_unavailable {c : Cache} {k : String} {now : Nat}
    (h : c.available = false) : cache_get c k now = none := by
  simp [cache_get, redis_get, h]

/-- The group-by key list is exactly the deduplicated list of `nota` values. -/
theorem groupByNota_keys (rs : List Avaliacao) :
    (RatingRepository.groupByNota rs).map Prod.fst
      = (rs.map (fun r => r.nota)).dedup := by
  unfold RatingRepository.groupByNota
  rw [List.map_map]
  simp [Function.comp_def]

/-- The group-by counts sum to the number of rows. -/
theorem groupByNota_snd_sum (rs : List Avaliacao) :
    ((RatingRepository.groupByNota rs).map Prod.snd).sum = rs.length := by
  unfold RatingRepository.groupByNota
  rw [List.map_map]
  have h1 : ((rs.map (fun r => r.nota)).dedup.map
      (Prod.snd ∘ fun n => (n, (rs.filter (fun r => r.nota == n)).length)))
      = (rs.map (fun r => r.nota)).dedup.map
          (fun n => (rs.map (fun r => r.nota)).count n) := by
    apply List.map_congr_left
    intro n _
    simp only [Function.comp_apply]
    rw [← List.countP_eq_length_filter, List.count, List.countP_map]
    rfl
  rw [h1, List.sum_map_count_dedup_eq_length, List.length_map]

/-- Overwriting the (unique, zero-valued) entry at key `k` adds `v` to the
sum of the dict values. -/
theorem sum_overwrite (k : Int) (v : Nat) (d : List (Int × Nat))
    (hnd : (d.map Prod.fst).Nodup)
    (h0 : ∀ q ∈ d, q.1 = k → q.2 = 0)
    (hex : ∃ q ∈ d, q.1 = k) :
    ((d.map (fun p => if p.1 == k then (k, v) else p)).map Prod.snd).sum
      = (d.map Prod.snd).sum + v := by
  induction d with
  | nil => simp at hex
  | cons q d ih =>
    simp only [List.map_cons, List.nodup_cons] at hnd
    by_cases hq : q.1 = k
    · have htail : d.map (fun p => if p.1 == k then (k, v) else p) = d := by
        have hpt : ∀ p ∈ d, (if p.1 == k then (k, v) else p) = p := by
          intro p hp
          have hpk : p.1 ≠ k := by
            intro hcontra
            apply hnd.1
            have hmem := List.mem_map_of_mem Prod.fst hp
            rw [hcontra, ← hq] at hmem
            exact hmem
          simp [hpk]
        rw [List.map_congr_left hpt]
        simp
      have hq0 : q.2 = 0 := h0 q (List.mem_cons_self q d) hq
      have hcond : (q.1 == k) = true := by simp [hq]
      rw [List.map_cons, htail, List.map_cons, List.sum_cons, List.map_cons,
        List.sum_cons, if_pos hcond, hq0]
      omega
    · have hstep : (if q.1 == k then (k, v) else q) = q := by simp [hq]
      have hex' : ∃ p ∈ d, p.1 = k := by
        obtain ⟨w, hw, hwk⟩ := hex
        rcases List.mem_cons.mp hw with h | h
        · exact absurd (h ▸ hwk) hq
        · exact ⟨w, h, hwk⟩
      have h0' : ∀ p ∈ d, p.1 = k → p.2 = 0 :=
        fun p hp => h0 p (List.mem_cons_of_mem q hp)
      simp only [List.map_cons, hstep, List.sum_cons]
      rw [ih hnd.2 h0' hex']
      omega

/-- The operation `dictSet` preserves distinctness of the keys. -/
theorem dictSet_nodupKeys (d : List (Int × Nat)) (k : Int) (v : Nat)
    (hnd : (d.map Prod.fst).Nodup) :
    ((RatingRepository.dictSet d k v).map Prod.fst).Nodup := by
  unfold RatingRepository.dictSet
  split
  case isTrue h =>
    have hkeys : (d.map (fun p => if p.1 == k then (k, v) else p)).map Prod.fst
        = d.map Prod.fst := by
      rw [List.map_map]
      apply List.map_congr_left
      intro p _
      by_cases hp : p.1 = k <;> simp [hp]
    rw [hkeys]
    exact hnd
  case isFalse h =>
    rw [List.map_append]
    rw [List.nodup_append]
    refine ⟨hnd, by simp, ?_⟩
    intro a ha hb
    simp only [List.map_cons, List.map_nil, List.mem_singleton] at hb
    subst hb
    obtain ⟨p, hp, hpa⟩ := List.mem_map.mp ha
    exact h (List.any_eq_true.mpr ⟨p, hp, by simp [hpa]⟩)

/-- Assignment via `dictSet` at key `k` does not disturb zero values held at other keys. -/
theorem dictSet_preserve_zero (d : List (Int × Nat)) (k j : Int) (v : Nat)
    (hjk : j ≠ k)
    (h0 : ∀ q ∈ d, q.1 = j → q.2 = 0) :
    ∀ q ∈ RatingRepository.dictSet d k v, q.1 = j → q.2 = 0 := by
  unfold RatingRepository.dictSet
  split
  · intro q hq hqj
    obtain ⟨p, hp, hpq⟩ := List.mem_map.mp hq
    by_cases hpk : p.1 = k
    · rw [if_pos (by simp [hpk])] at hpq
      rw [← hpq] at hqj
      exact absurd hqj.symm hjk
    · rw [if_neg (by simp [hpk])] at hpq
      exact hpq ▸ h0 p hp (hpq ▸ hqj)
  · intro q hq hqj
    rcases List.mem_append.mp hq with h | h
    · exact h0 q h hqj
    · simp only [List.mem_singleton] at h
      rw [h] at hqj
      exact absurd hqj.symm hjk

/-- Folding the group-by rows into a zero-valued dict with distinct keys adds
exactly the group counts to the sum of the dict values. -/
theorem fold_dictSet_sum (ps : List (Int × Nat)) :
    ∀ d : List (Int × Nat), (d.map Prod.fst).Nodup →
    (ps.map Prod.fst).Nodup →
    (∀ p ∈ ps, ∀ q ∈ d, q.1 = p.1 → q.2 = 0) →
    ((ps.foldl (fun d p => RatingRepository.dictSet d p.1 p.2) d).map
        Prod.snd).sum
      = (d.map Prod.snd).sum + (ps.map Prod.snd).sum := by
  induction ps with
  | nil => intro d _ _ _; simp
  | cons p ps ih =>
    intro d hd hps h0
    simp only [List.map_cons, List.nodup_cons] at hps
    simp only [List.foldl_cons, List.map_cons, List.sum_cons]
    have hsum : ((RatingRepository.dictSet d p.1 p.2).map Prod.snd).sum
        = (d.map Prod.snd).sum + p.2 := by
      unfold RatingRepository.dictSet
      split
      case isTrue h =>
        apply sum_overwrite p.1 p.2 d hd
          (fun q hq => h0 p (List.mem_cons_self p ps) q hq)
        obtain ⟨q, hq, hqk⟩ := List.any_eq_true.mp h
        exact ⟨q, hq, by simpa using hqk⟩
      case isFalse h => simp
    have hzero' : ∀ r ∈ ps, ∀ q ∈ RatingRepository.dictSet d p.1 p.2,
        q.1 = r.1 → q.2 = 0 := by
      intro r hr
      apply dictSet_preserve_zero
      · intro hcontra
        exact hps.1 (hcontra ▸ List.mem_map_of_mem Prod.fst hr)
      · exact fun q hq => h0 r (List.mem_cons_of_mem p hr) q hq
    rw [ih (RatingRepository.dictSet d p.1 p.2)
      (dictSet_nodupKeys d p.1 p.2 hd) hps.2 hzero', hsum]
    omega

/-- Strings are determined by their character data. -/
theorem string_data_inj {a b : String} (h : a.data = b.data) : a = b := by
  cases a; cases b; exact congrArg String.mk h

/-- Splitting at a separator character that occurs in neither left part is
unambiguous. -/
theorem sep_split {a a' b b' : List Char}
    (ha : ':' ∉ a) (ha' : ':' ∉ a')
    (h : a ++ ':' :: b = a' ++ ':' :: b') : a = a' ∧ b = b' := by
  induction a generalizing a' with
  | nil =>
    cases a' with
    | nil => simpa using h
    | cons y ys =>
      rw [List.nil_append, List.cons_append] at h
      injection h with h1 _
      exact absurd (h1 ▸ List.mem_cons_self y ys) ha'
  | cons x xs ih =>
    cases a' with
    | nil =>
      rw [List.nil_append, List.cons_append] at h
      injection h with h1 _
      exact absurd (h1 ▸ List.mem_cons_self x xs) ha
    | cons y ys =>
      rw [List.cons_append, List.cons_append] at h
      injection h with h1 h2
      have hxs : ':' ∉ xs := fun hm => ha (List.mem_cons_of_mem x hm)
      have hys : ':' ∉ ys := fun hm => ha' (List.mem_cons_of_mem y hm)
      obtain ⟨hl, hr⟩ := ih hxs hys h2
      exact ⟨by rw [h1, hl], hr⟩

/-- A filter value that round-trips unambiguously through the cache key: it
is absent, or a string that contains no `':'` separator and is not Python's
rendering `"None"` of an absent filter. -/
def goodFilter : Option String → Prop
  | none => True
  | some s => ':' ∉ s.data ∧ s ≠ "None"

/-- The rendering of a good filter contains no separator. -/
theorem optStr_no_colon {v : Option String} (h : goodFilter v) :
    ':' ∉ (SpotService.optStr v).data := by
  cases v with
  | none => decide
  | some s => exact h.1

/-- The rendering of good filters is injective. -/
theorem optStr_inj {x y : Option String} (hx : goodFilter x)
    (hy : goodFilter y) (h : SpotService.optStr x = SpotService.optStr y) :
    x = y := by
  cases x with
  | none =>
    cases y with
    | none => rfl
    | some t => exact absurd (by simpa [SpotService.optStr] using h.symm) hy.2
  | some s =>
    cases y with
    | none => exact absurd (by simpa [SpotService.optStr] using h) hx.2
    | some t => simpa [SpotService.optStr] using h

/-! ## Claims -/

/-- Claim C4: for every spot id with zero rating rows, the average is `none`
and the distribution is exactly `{1:0, 2:0, 3:0, 4:0, 5:0}`, all five star
keys present and zero. -/
theorem zero_ratings_aggregation (dbr : List Avaliacao) (pid : Nat)
    (h : RatingRepository.ratingsFor dbr pid = []) :
    RatingRepository.get_average_rating dbr pid = none ∧
    RatingRepository.get_rating_distribution dbr pid
      = [(1, 0), (2, 0), (3, 0), (4, 0), (5, 0)] := by
  constructor
  · simp [RatingRepository.get_average_rating, h]
  · simp [RatingRepository.get_rating_distribution, h,
      RatingRepository.groupByNota]

/-- Witness for C4: a database holding one rating for spot 2 has zero rows
for spot 1, and the aggregates degenerate as claimed. -/
theorem zero_ratings_aggregation_witness :
    RatingRepository.ratingsFor [⟨1, 2, 3, 5, none, 0⟩] 1 = [] ∧
    (RatingRepository.get_average_rating [⟨1, 2, 3, 5, none, 0⟩] 1 = none ∧
     RatingRepository.get_rating_distribution [⟨1, 2, 3, 5, none, 0⟩] 1
       = [(1, 0), (2, 0), (3, 0), (4, 0), (5, 0)]) :=
  ⟨by decide, zero_ratings_aggregation [⟨1, 2, 3, 5, none, 0⟩] 1 (by decide)⟩

/-- Claim C9: `list_spots` with no filters, `skip = 0`, `limit = 20` on an
empty spot table and empty cache returns the empty page with `total = 0`
(the items list, called `spots` in the source dictionary, is empty). -/
theorem list_spots_empty_table :
    (SpotService.list_spots [] [] ⟨[], true⟩ 0 0 20 none none none none).1
      = CacheValue.listing ⟨[], 0, 0, 20, false⟩ := by
  simp [SpotService.list_spots, SpotService.buildSpotList,
    SpotService.list_cache_key, cache_get, redis_get,
    SpotRepository.get_all, SpotRepository.count_all]

/-- Claim C7: when the spot has no active row and no cached detail entry,
`get_spot_by_id` returns `none` and leaves the cache state unchanged; the
negative result is not written to the cache and nothing is raised. -/
theorem get_spot_not_found_uncached (dbs : List PontoTuristico)
    (dbr : List Avaliacao) (photos : List Photo) (c : Cache) (now id : Nat)
    (hmiss : cache_get c (SpotService.detailKey id) now = none)
    (hrow : SpotRepository.get_by_id dbs id = none) :
    SpotService.get_spot_by_id dbs dbr photos c now id = (none, c) := by
  unfold SpotService.get_spot_by_id
  rw [hmiss]
  unfold SpotService.buildSpotDetail
  rw [hrow]

/-- Witness for C7: empty table and empty cache at spot id 1. -/
theorem get_spot_not_found_uncached_witness :
    cache_get ⟨[], true⟩ (SpotService.detailKey 1) 0 = none ∧
    SpotRepository.get_by_id [] 1 = none ∧
    SpotService.get_spot_by_id [] [] [] ⟨[], true⟩ 0 1 = (none, ⟨[], true⟩) :=
  ⟨by decide, rfl, get_spot_not_found_uncached [] [] [] ⟨[], true⟩ 0 1
    (by decide) rfl⟩

/-- Claim C3: when the cache is unreachable its raw reads fail, but
`get_spot_by_id` and `list_spots` treat the failure as a miss and return
exactly the data computed directly from the stores, without raising. -/
theorem cache_fail_open (dbs : List PontoTuristico) (dbr : List Avaliacao)
    (photos : List Photo) (c : Cache) (now id skip limit : Nat)
    (cidade estado pais search : Option String)
    (h : c.available = false) :
    (∃ e, redis_get c (SpotService.detailKey id) now = Except.error e) ∧
    (SpotService.get_spot_by_id dbs dbr photos c now id).1
      = (SpotService.buildSpotDetail dbs dbr photos id).map CacheValue.detail ∧
    (SpotService.list_spots dbs dbr c now skip limit
        cidade estado pais search).1
      = CacheValue.listing
          (SpotService.buildSpotList dbs dbr skip limit
            cidade estado pais search) := by
  refine ⟨⟨"RedisError", by simp [redis_get, h]⟩, ?_, ?_⟩
  · unfold SpotService.get_spot_by_id
    rw [cache_get_unavailable h]
    cases hb : SpotService.buildSpotDetail dbs dbr photos id <;> simp [hb]
  · unfold SpotService.list_spots
    simp only [cache_get_unavailable h]

/-- Witness for C3: an unreachable cache holding a (stale) entry is bypassed
and the empty-store values are served. -/
theorem cache_fail_open_witness :
    (⟨[], false⟩ : Cache).available = false ∧
    (SpotService.get_spot_by_id [] [] [] ⟨[], false⟩ 0 1).1
      = (SpotService.buildSpotDetail [] [] [] 1).map CacheValue.detail :=
  ⟨rfl, (cache_fail_open [] [] [] ⟨[], false⟩ 0 1 0 20
    none none none none rfl).2.1⟩

/-- Claim C6: after `invalidate_spot_cache id` on a reachable cache, no entry
with key `spot:{id}` and no entry with prefix `spots:list:` remains, and the
next `get_spot_by_id id` recomputes from the stores even within the original
TTL window. -/
theorem invalidate_spot_cache_correct (c : Cache) (spot_id : Nat)
    (hav : c.available = true) :
    (∀ e ∈ (SpotService.invalidate_spot_cache c spot_id).entries,
        e.key ≠ SpotService.detailKey spot_id ∧
        "spots:list:".isPrefixOf e.key = false) ∧
    (∀ dbs dbr photos now,
      (SpotService.get_spot_by_id dbs dbr photos
          (SpotService.invalidate_spot_cache c spot_id) now spot_id).1
        = (SpotService.buildSpotDetail dbs dbr photos spot_id).map
            CacheValue.detail) := by
  have hent : (SpotService.invalidate_spot_cache c spot_id).entries
      = (c.entries.filter
          (fun e => !(e.key == SpotService.detailKey spot_id))).filter
          (fun e => !("spots:list:".isPrefixOf e.key)) := by
    simp [SpotService.invalidate_spot_cache, cache_delete, redis_delete,
      cache_clear_pattern, redis_delete_by_pre, hav]
  have hmem : ∀ e ∈ (SpotService.invalidate_spot_cache c spot_id).entries,
      e.key ≠ SpotService.detailKey spot_id ∧
      "spots:list:".isPrefixOf e.key = false := by
    intro e he
    rw [hent] at he
    have h1 := List.of_mem_filter he
    have h2 := List.of_mem_filter (List.mem_of_mem_filter he)
    constructor
    · simpa using h2
    · simpa using h1
  refine ⟨hmem, ?_⟩
  intro dbs dbr photos now
  have hkey : cache_get (SpotService.invalidate_spot_cache c spot_id)
      (SpotService.detailKey spot_id) now = none :=
    cache_get_of_no_entry (fun e he => (hmem e he).1)
  unfold SpotService.get_spot_by_id
  rw [hkey]
  cases hb : SpotService.buildSpotDetail dbs dbr photos spot_id <;> simp [hb]

/-- Witness for C6: a reachable cache holding one detail and one list entry
is emptied of both by the invalidation, and the subsequent read recomputes. -/
theorem invalidate_spot_cache_correct_witness :
    (⟨[⟨"spot:1", .listing ⟨[], 0, 0, 20, false⟩, 900⟩,
       ⟨"spots:list:0:20:None:None:None:None",
        .listing ⟨[], 0, 0, 20, false⟩, 900⟩], true⟩ : Cache).available
      = true ∧
    (∀ e ∈ (SpotService.invalidate_spot_cache
        ⟨[⟨"spot:1", .listing ⟨[], 0, 0, 20, false⟩, 900⟩,
          ⟨"spots:list:0:20:None:None:None:None",
           .listing ⟨[], 0, 0, 20, false⟩, 900⟩], true⟩ 1).entries,
        e.key ≠ SpotService.detailKey 1 ∧
        "spots:list:".isPrefixOf e.key = false) :=
  ⟨rfl, (invalidate_spot_cache_correct
    ⟨[⟨"spot:1", .listing ⟨[], 0, 0, 20, false⟩, 900⟩,
      ⟨"spots:list:0:20:None:None:None:None",
       .listing ⟨[], 0, 0, 20, false⟩, 900⟩], true⟩ 1 rfl).1⟩

/-- Claim C8: soft-deleted spots are invisible to all read paths — their id
resolves to `none` in `get_by_id` (ids being unique), `get_all` only ever
returns active rows, and `count_all` is unchanged by removing soft-deleted
rows from the table. -/
theorem soft_deleted_invisible (dbs : List PontoTuristico)
    (hids : (dbs.map (fun s => s.id)).Nodup) :
    (∀ s ∈ dbs, s.deleted_at ≠ none →
        SpotRepository.get_by_id dbs s.id = none) ∧
    (∀ skip limit cidade estado pais search,
        ∀ s ∈ SpotRepository.get_all dbs skip limit cidade estado pais search,
          s.deleted_at = none) ∧
    (∀ cidade estado pais search,
        SpotRepository.count_all dbs cidade estado pais search
          = SpotRepository.count_all
              (dbs.filter (fun s => s.deleted_at == none))
              cidade estado pais search) := by
  refine ⟨?_, ?_, ?_⟩
  · intro s hs hdel
    unfold SpotRepository.get_by_id
    have hfil : dbs.filter (fun t => t.id == s.id && t.deleted_at == none)
        = [] := by
      apply List.filter_eq_nil_iff.mpr
      intro t ht
      simp only [Bool.and_eq_true, beq_iff_eq, not_and]
      intro hid
      have : t = s := List.inj_on_of_nodup_map hids ht hs hid
      subst this
      exact fun hnone => hdel hnone
    rw [hfil]
    rfl
  · intro skip limit cidade estado pais search s hmem
    unfold SpotRepository.get_all at hmem
    have h1 := List.mem_of_mem_take hmem
    have h2 := List.mem_of_mem_drop h1
    have h3 := List.mem_mergeSort.mp h2
    have h4 := List.mem_of_mem_filter h3
    have := List.of_mem_filter h4
    simpa using this
  · intro cidade estado pais search
    unfold SpotRepository.count_all
    rw [List.filter_filter]
    simp

/-- Witness for C8: a two-row table with distinct ids, one row soft-deleted;
the deleted id reads as `none`. -/
theorem soft_deleted_invisible_witness :
    (([⟨1, "a", "d", "c", "e", "p", 0, 0, "r", 7, 5, some 9⟩,
       ⟨2, "b", "d", "c", "e", "p", 0, 0, "r", 7, 6, none⟩] :
        List PontoTuristico).map (fun s => s.id)).Nodup ∧
    SpotRepository.get_by_id
      [⟨1, "a", "d", "c", "e", "p", 0, 0, "r", 7, 5, some 9⟩,
       ⟨2, "b", "d", "c", "e", "p", 0, 0, "r", 7, 6, none⟩] 1 = none :=
  ⟨by decide,
   (soft_deleted_invisible
      [⟨1, "a", "d", "c", "e", "p", 0, 0, "r", 7, 5, some 9⟩,
       ⟨2, "b", "d", "c", "e", "p", 0, 0, "r", 7, 6, none⟩]
      (by decide)).1
     ⟨1, "a", "d", "c", "e", "p", 0, 0, "r", 7, 5, some 9⟩
     (by simp) (by simp)⟩

/-- Spot row used in the C1 evidence: id 1, active. -/
def spotC1 : PontoTuristico := ⟨1, "n", "d", "c", "e", "p", 0, 0, "r", 7, 0, none⟩

/-- A cached (now stale) detail dictionary for spot 1. -/
def detailC1 : SpotDetail := ⟨1, "n", "d", "c", "e", "p", 0, 0, "r", 7, "0", none, 0, 0⟩

/-- A reachable cache holding the detail entry for spot 1 and one list
entry, both far from expiry. -/
def cacheC1 : Cache :=
  ⟨[⟨"spot:1", .detail detailC1, 1000⟩,
    ⟨"spots:list:0:20:None:None:None:None", .listing ⟨[], 0, 0, 20, false⟩,
     1000⟩], true⟩

/-- Claim C1 evidence: the write paths perform no cache invalidation. A
successful `create_rating` for spot 1 returns with the cache identical to
before — the stale `spot:1` detail entry is still served — and the
`delete_spot` handler likewise passes the cache through untouched.
(`RatingService._update_spot_rating_aggregation` ends in `pass`, and
`SpotService.invalidate_spot_cache` has no caller in the repository.) -/
theorem write_path_skips_invalidation :
    create_rating_endpoint [spotC1] [] cacheC1 1 2 5 none 10
      = .ok (⟨1, 1, 2, 5, none, 10⟩, [⟨1, 1, 2, 5, none, 10⟩], cacheC1) ∧
    cache_get cacheC1 (SpotService.detailKey 1) 10
      = some (.detail detailC1) ∧
    delete_spot_endpoint [spotC1] cacheC1 1 10
      = .ok ([{ spotC1 with deleted_at := some 10 }], cacheC1) := by
  refine ⟨?_, ?_, ?_⟩ <;> rfl

/-- Claim C2 counterexample: two `list_spots` calls that differ in a filter
value (`estado` the string `"None"` versus `estado` absent) compute the very
same cache key, because Python renders the absent filter as `"None"` inside
the f-string. -/
theorem list_cache_key_collision :
    SpotService.list_cache_key 0 20 none (some "None") none none
      = SpotService.list_cache_key 0 20 none none none none ∧
    (some "None" : Option String) ≠ (none : Option String) :=
  ⟨by decide, by decide⟩

/-- Claim C2 as amended: fixing skip and limit, and restricting filter values
to ones containing no `':'` and different from the literal `"None"`, the
cache key agrees exactly when all four filter values agree. -/
theorem list_cache_key_discrimination (skip limit : Nat)
    (c1 e1 p1 s1 c2 e2 p2 s2 : Option String)
    (hc1 : goodFilter c1) (he1 : goodFilter e1) (hp1 : goodFilter p1)
    (hs1 : goodFilter s1) (hc2 : goodFilter c2) (he2 : goodFilter e2)
    (hp2 : goodFilter p2) (hs2 : goodFilter s2) :
    SpotService.list_cache_key skip limit c1 e1 p1 s1
      = SpotService.list_cache_key skip limit c2 e2 p2 s2
      ↔ (c1 = c2 ∧ e1 = e2 ∧ p1 = p2 ∧ s1 = s2) := by
  constructor
  · intro h
    have hd := congrArg String.data h
    have hcol : (":" : String).data = [':'] := rfl
    simp only [SpotService.list_cache_key, String.data_append, hcol,
      List.append_assoc] at hd
    have h1 := List.append_cancel_left hd
    have h2 := List.append_cancel_left h1
    have h3 := List.append_cancel_left h2
    have h4 := List.append_cancel_left h3
    have h5 := List.append_cancel_left h4
    simp only [List.singleton_append] at h5
    obtain ⟨hc, h6⟩ :=
      sep_split (optStr_no_colon hc1) (optStr_no_colon hc2) h5
    obtain ⟨he, h7⟩ :=
      sep_split (optStr_no_colon he1) (optStr_no_colon he2) h6
    obtain ⟨hp, hs⟩ :=
      sep_split (optStr_no_colon hp1) (optStr_no_colon hp2) h7
    exact ⟨optStr_inj hc1 hc2 (string_data_inj hc),
           optStr_inj he1 he2 (string_data_inj he),
           optStr_inj hp1 hp2 (string_data_inj hp),
           optStr_inj hs1 hs2 (string_data_inj hs)⟩
  · rintro ⟨rfl, rfl, rfl, rfl⟩
    rfl

/-- Witness for the amended C2, at the example given in the spec: the keys for
`cidade = "Rio"` and `cidade = "Sao Paulo"` never collide. -/
theorem list_cache_key_discrimination_witness :
    goodFilter (some "Rio") ∧ goodFilter (some "Sao Paulo") ∧
    SpotService.list_cache_key 0 20 (some "Rio") none none none
      ≠ SpotService.list_cache_key 0 20 (some "Sao Paulo") none none none :=
  ⟨⟨by decide, by decide⟩, ⟨by decide, by decide⟩,
   fun h => by
     have hinj := (list_cache_key_discrimination 0 20 (some "Rio") none none
       none (some "Sao Paulo") none none none ⟨by decide, by decide⟩ trivial
       trivial trivial ⟨by decide, by decide⟩ trivial trivial trivial).mp h
     simp at hinj⟩

/-- Claim C5: for every spot id, `count_by_spot_id` equals the sum of the
values of `get_rating_distribution` over the same rating rows. -/
theorem count_eq_distribution_sum (dbr : List Avaliacao) (pid : Nat) :
    RatingRepository.count_by_spot_id dbr pid
      = ((RatingRepository.get_rating_distribution dbr pid).map
          Prod.snd).sum := by
  unfold RatingRepository.count_by_spot_id
    RatingRepository.get_rating_distribution
  have hinit : (([(1, 0), (2, 0), (3, 0), (4, 0), (5, 0)] :
      List (Int × Nat)).map Prod.fst).Nodup := by decide
  have hinit0 : ∀ q ∈ ([(1, 0), (2, 0), (3, 0), (4, 0), (5, 0)] :
      List (Int × Nat)), q.2 = 0 := by decide
  have hgkeys :
      ((RatingRepository.groupByNota
          (RatingRepository.ratingsFor dbr pid)).map Prod.fst).Nodup := by
    rw [groupByNota_keys]
    exact List.nodup_dedup _
  rw [fold_dictSet_sum _ _ hinit hgkeys
    (fun p _ q hq _ => hinit0 q hq), groupByNota_snd_sum]
  simp

/-- Claim C10: in `create_rating` the spot-existence check precedes the
duplicate check, which precedes the range check: with an out-of-range
`nota`, a missing spot yields 404, an existing spot already rated by the
user yields 409, and the 400 range error occurs exactly when the spot
exists and the user has not rated it. -/
theorem create_rating_check_order (dbs : List PontoTuristico)
    (dbr : List Avaliacao) (pid uid : Nat) (nota : Int)
    (com : Option String) (now : Nat)
    (hrange : nota < 1 ∨ nota > 5) :
    (SpotRepository.get_by_id dbs pid = none →
      RatingService.create_rating dbs dbr pid uid nota com now
        = .error ⟨404, "SPOT_001"⟩) ∧
    (∀ s, SpotRepository.get_by_id dbs pid = some s →
      ∀ r, RatingRepository.get_by_user_and_spot dbr uid pid = some r →
      RatingService.create_rating dbs dbr pid uid nota com now
        = .error ⟨409, "RATING_001"⟩) ∧
    (∀ s, SpotRepository.get_by_id dbs pid = some s →
      RatingRepository.get_by_user_and_spot dbr uid pid = none →
      RatingService.create_rating dbs dbr pid uid nota com now
        = .error ⟨400, "VAL_003"⟩) := by
  refine ⟨?_, ?_, ?_⟩
  · intro hspot
    unfold RatingService.create_rating
    rw [hspot]
  · intro s hspot r hdup
    unfold RatingService.create_rating
    rw [hspot, hdup]
  · intro s hspot hdup
    unfold RatingService.create_rating
    rw [hspot, hdup]
    simp [hrange]

/-- Witness for C10: `nota = 9` against an empty spot table fails with 404
even though the value is out of range. -/
theorem create_rating_check_order_witness :
    ((9 : Int) < 1 ∨ (9 : Int) > 5) ∧
    SpotRepository.get_by_id [] 1 = none ∧
    RatingService.create_rating [] [] 1 2 9 none 0
      = .error ⟨404, "SPOT_001"⟩ :=
  ⟨Or.inr (by decide), rfl,
   (create_rating_check_order [] [] 1 2 9 none 0 (Or.inr (by decide))).1 rfl⟩
